import Mathlib

/-!
Verification of the decimal-rewriting source transform in src/loader.ts.

The transform walks a TypeScript syntax tree, rewrites floating-point
arithmetic into calls on the arbitrary-precision Decimal type, and ensures a
single import of that type.  We embed the syntax-tree shapes the transform
inspects, translate its functions (ensureFixedPoint, rewriteBinaryExpression,
rewriteCallExpression, decimalify / decimalifyChild, sourceFileHasDecimalJS and
the import-prepending step of the loader) into Lean, and prove the claimed
properties about them.
-/

/-- Syntactic kinds of the TypeScript nodes the transform distinguishes
(values of the ts.SyntaxKind enumeration that appear in src/loader.ts),
with a catch-all for every other kind. -/
inductive SyntaxKind where
  | NumericLiteral
  | StringLiteral
  | Identifier
  | BinaryExpression
  | CallExpression
  | PropertyAccessExpression
  | NewExpression
  | VariableDeclaration
  | ImportDeclaration
  | ImportClause
  | PrefixUnaryExpression
  | ParenthesizedExpression
  | ExpressionStatement
  | VariableStatement
  | VariableDeclarationList
  | NamedImports
  | NamespaceImport
  | SourceFile
  | SlashToken
  | AsteriskToken
  | PlusToken
  | MinusToken
  | LessThanToken
  | GreaterThanToken
  | otherKind (name : String)
  deriving DecidableEq, Repr

/-- Shallow embedding of the TypeScript AST nodes handled by src/loader.ts.
Each constructor carries exactly the fields the transform reads:
a binary expression carries left operand, operator-token kind and right
operand; a call carries callee and argument list; a property access carries
its object expression and name; an import declaration carries its optional
clause and its module specifier; a variable declaration carries its name
and optional initializer.  Every node kind the transform never destructures
is represented by the catch-all constructor together with its kind and the
child list that ts.forEachChild would visit.  identifierOfInherited stands
for the ill-formed Identifier node that ts.createIdentifier builds when it
is handed a non-string value, namely the member of Object.prototype named
memberName: escapeLeadingUnderscores returns such a value as is (its length
test fails), so the text field holds the member itself instead of a string,
while the node kind is still Identifier. -/
inductive Node where
  | numericLiteral (text : String)
  | stringLiteral (text : String)
  | identifier (escapedText : String)
  | identifierOfInherited (memberName : String)
  | binaryExpression (left : Node) (operatorTokenKind : SyntaxKind) (right : Node)
  | callExpression (expression : Node) (arguments : List Node)
  | propertyAccessExpression (expression : Node) (name : Node)
  | newExpression (expression : Node) (arguments : List Node)
  | variableDeclaration (name : Node) (initializer : Option Node)
  | importClause (name : Option Node) (namedBindings : Option Node)
  | importDeclaration (clause : Option Node) (moduleSpecifier : Node)
  | other (kind : SyntaxKind) (children : List Node)
  deriving Repr

mutual

/-- Structural equality on embedded nodes.  In the JavaScript source the
walker compares nodes by reference; every rewrite allocates a fresh node of a
different shape (a call wrapping the Decimal type) while every passthrough
returns the argument itself, so reference equality coincides with structural
equality on the values the transform actually compares. -/
def Node.beq : Node → Node → Bool
  | .numericLiteral a, .numericLiteral b => a == b
  | .stringLiteral a, .stringLiteral b => a == b
  | .identifier a, .identifier b => a == b
  | .identifierOfInherited a, .identifierOfInherited b => a == b
  | .binaryExpression l1 k1 r1, .binaryExpression l2 k2 r2 =>
      l1.beq l2 && (k1 == k2) && r1.beq r2
  | .callExpression e1 a1, .callExpression e2 a2 => e1.beq e2 && Node.beqList a1 a2
  | .propertyAccessExpression e1 n1, .propertyAccessExpression e2 n2 => e1.beq e2 && n1.beq n2
  | .newExpression e1 a1, .newExpression e2 a2 => e1.beq e2 && Node.beqList a1 a2
  | .variableDeclaration n1 i1, .variableDeclaration n2 i2 => n1.beq n2 && Node.beqOpt i1 i2
  | .importClause n1 b1, .importClause n2 b2 => Node.beqOpt n1 n2 && Node.beqOpt b1 b2
  | .importDeclaration c1 m1, .importDeclaration c2 m2 => Node.beqOpt c1 c2 && m1.beq m2
  | .other k1 c1, .other k2 c2 => (k1 == k2) && Node.beqList c1 c2
  | _, _ => false

/-- Pointwise structural equality on node lists. -/
def Node.beqList : List Node → List Node → Bool
  | [], [] => true
  | x :: xs, y :: ys => x.beq y && Node.beqList xs ys
  | _, _ => false

/-- Structural equality on optional nodes. -/
def Node.beqOpt : Option Node → Option Node → Bool
  | none, none => true
  | some x, some y => x.beq y
  | _, _ => false

end

theorem Node.one_le_sizeOf (x : Node) : 1 ≤ sizeOf x := by
  cases x <;> simp_arith

set_option maxHeartbeats 1600000 in
theorem Node.beq_sound_aux : ∀ n : Nat,
    (∀ a b : Node, sizeOf a ≤ n → (Node.beq a b = true ↔ a = b)) ∧
    (∀ as bs : List Node, sizeOf as ≤ n → (Node.beqList as bs = true ↔ as = bs)) ∧
    (∀ o1 o2 : Option Node, sizeOf o1 ≤ n → (Node.beqOpt o1 o2 = true ↔ o1 = o2)) := by
  intro n
  induction n with
  | zero =>
      refine ⟨fun a b h => ?_, fun as bs h => ?_, fun o1 o2 h => ?_⟩
      · have := Node.one_le_sizeOf a
        omega
      · have : 1 ≤ sizeOf as := by cases as <;> simp_arith
        omega
      · have : 1 ≤ sizeOf o1 := by cases o1 <;> simp_arith
        omega
  | succ n ih =>
      obtain ⟨ihN, ihL, ihO⟩ := ih
      refine ⟨fun a b ha => ?_, fun as bs ha => ?_, fun o1 o2 ha => ?_⟩
      · cases a with
        | numericLiteral t => cases b <;> simp [Node.beq]
        | stringLiteral t => cases b <;> simp [Node.beq]
        | identifier t => cases b <;> simp [Node.beq]
        | identifierOfInherited t => cases b <;> simp [Node.beq]
        | binaryExpression l1 k1 r1 =>
            simp at ha
            have H1 := fun b => ihN l1 b (by omega)
            have H2 := fun b => ihN r1 b (by omega)
            cases b <;> simp [Node.beq, H1, H2]
            tauto
        | callExpression e1 a1 =>
            simp at ha
            have H1 := fun b => ihN e1 b (by omega)
            have H2 := fun bs => ihL a1 bs (by omega)
            cases b <;> simp [Node.beq, H1, H2]
        | propertyAccessExpression e1 n1 =>
            simp at ha
            have H1 := fun b => ihN e1 b (by omega)
            have H2 := fun b => ihN n1 b (by omega)
            cases b <;> simp [Node.beq, H1, H2]
        | newExpression e1 a1 =>
            simp at ha
            have H1 := fun b => ihN e1 b (by omega)
            have H2 := fun bs => ihL a1 bs (by omega)
            cases b <;> simp [Node.beq, H1, H2]
        | variableDeclaration n1 i1 =>
            simp at ha
            have H1 := fun b => ihN n1 b (by omega)
            have H2 := fun o => ihO i1 o (by omega)
            cases b <;> simp [Node.beq, H1, H2]
        | importClause n1 b1 =>
            simp at ha
            have H1 := fun o => ihO n1 o (by omega)
            have H2 := fun o => ihO b1 o (by omega)
            cases b <;> simp [Node.beq, H1, H2]
        | importDeclaration c1 m1 =>
            simp at ha
            have H1 := fun o => ihO c1 o (by omega)
            have H2 := fun b => ihN m1 b (by omega)
            cases b <;> simp [Node.beq, H1, H2]
        | other k1 c1 =>
            simp at ha
            have H1 := fun bs => ihL c1 bs (by omega)
            cases b <;> simp [Node.beq, H1]
      · cases as with
        | nil => cases bs <;> simp [Node.beqList]
        | cons x xs =>
            simp at ha
            have H1 := fun b => ihN x b (by omega)
            have H2 := fun bs => ihL xs bs (by omega)
            cases bs <;> simp [Node.beqList, H1, H2]
      · cases o1 with
        | none => cases o2 <;> simp [Node.beqOpt]
        | some x =>
            simp at ha
            have H1 := fun b => ihN x b (by omega)
            cases o2 <;> simp [Node.beqOpt, H1]

instance : DecidableEq Node := fun a b =>
  decidable_of_iff (Node.beq a b = true) ((Node.beq_sound_aux (sizeOf a)).1 a b (le_refl _))

instance {ε α : Type} [DecidableEq ε] [DecidableEq α] : DecidableEq (Except ε α) := fun a b =>
  match a, b with
  | .ok x, .ok y =>
      if h : x = y then .isTrue (by rw [h]) else .isFalse (fun hc => by cases hc; exact h rfl)
  | .error e, .error f =>
      if h : e = f then .isTrue (by rw [h]) else .isFalse (fun hc => by cases hc; exact h rfl)
  | .ok _, .error _ => .isFalse (fun hc => by cases hc)
  | .error _, .ok _ => .isFalse (fun hc => by cases hc)

/-- The kind discriminant of an embedded node (the .kind field of ts.Node). -/
def Node.kind : Node → SyntaxKind
  | .numericLiteral _ => .NumericLiteral
  | .stringLiteral _ => .StringLiteral
  | .identifier _ => .Identifier
  | .identifierOfInherited _ => .Identifier
  | .binaryExpression _ _ _ => .BinaryExpression
  | .callExpression _ _ => .CallExpression
  | .propertyAccessExpression _ _ => .PropertyAccessExpression
  | .newExpression _ _ => .NewExpression
  | .variableDeclaration _ _ => .VariableDeclaration
  | .importClause _ _ => .ImportClause
  | .importDeclaration _ _ => .ImportDeclaration
  | .other k _ => k

/-- Failure modes of the transform.  The strict classifier throws an Error
whose message names the unsupported syntactic kind; we model that fatal throw
as unsupportedNodeKind carrying the kind.  outOfFuel is an artifact of making
the in-place tree walk a total function: it never occurs when the walk is run
with fuel exceeding the recursion depth actually used. -/
inductive TransformError where
  | unsupportedNodeKind (kind : SyntaxKind)
  | outOfFuel
  deriving DecidableEq, Repr

/-- The trig-function allowlist object literal of src/loader.ts lines 5-9:
its own properties map the Math method names sin, cos and tan to Decimal
static-method names.  This models only the own properties of the literal;
the bracket read performed at line 66 also sees the members the literal
inherits from Object.prototype, which trigFunctionsIndex below accounts
for. -/
def TRIG_FUNCTIONS : String → Option String
  | "sin" => some "sin"
  | "cos" => some "cos"
  | "tan" => some "tan"
  | _ => none

/-- The property names every plain object literal inherits from
Object.prototype in the JavaScript runtime the loader runs on (V8): reading
TRIG_FUNCTIONS at any of these names finds the inherited member instead of
undefined.  Each such member is a function, except the dunder-proto accessor
whose value is the Object.prototype object; all of them are truthy. -/
def objectPrototypeMember : String → Bool
  | "constructor" => true
  | "hasOwnProperty" => true
  | "isPrototypeOf" => true
  | "propertyIsEnumerable" => true
  | "toLocaleString" => true
  | "toString" => true
  | "valueOf" => true
  | "__defineGetter__" => true
  | "__defineSetter__" => true
  | "__lookupGetter__" => true
  | "__lookupSetter__" => true
  | "__proto__" => true
  | _ => false

/-- Result of the property read at src/loader.ts line 66, indexing
TRIG_FUNCTIONS with a method name: an own property of the literal holds the
mapped Decimal method-name string; a name of an Object.prototype member
finds the inherited member, which is not a string but is truthy at the
following if check; any other name yields undefined, which is falsy. -/
inductive JsLookup where
  | mappedName (s : String)
  | inheritedMember (name : String)
  | undefinedValue
  deriving DecidableEq, Repr

/-- The bracket read TRIG_FUNCTIONS[method] (src/loader.ts line 66): own
properties shadow the prototype chain, prototype members are found next, and
every other key yields undefined. -/
def trigFunctionsIndex (method : String) : JsLookup :=
  match TRIG_FUNCTIONS method with
  | some s => .mappedName s
  | none =>
      if objectPrototypeMember method then .inheritedMember method else .undefinedValue

/-- The operator switch of rewriteBinaryExpression (src/loader.ts lines
22-33): the four arithmetic operator tokens map to Decimal method names and
every other operator token falls through to the default case (none). -/
def operatorMethod : SyntaxKind → Option String
  | .SlashToken => some "div"
  | .AsteriskToken => some "times"
  | .PlusToken => some "plus"
  | .MinusToken => some "minus"
  | _ => none

/-- rewriteCallExpression (src/loader.ts lines 52-81).  Only a call whose
callee is a property access is examined; the namespace is read when the
property-access object is an identifier; a namespace other than Math returns
the node unchanged.  The bracket read of TRIG_FUNCTIONS then guards a single
truthy branch: when the lookup finds a value that is truthy — an own mapped
string, or a member inherited from Object.prototype — a fresh call of a
static method on the Decimal identifier is built, passing the original
argument list through unchanged, with the method identifier created from
whatever value the lookup produced (the two truthy arms below reflect the
string and the non-string outcome of ts.createIdentifier); only the falsy
undefined lookup returns the node unchanged.  An absent method name (paName
not an identifier) indexes the table with undefined and misses. -/
def rewriteCallExpression (node : Node) : Node :=
  match node with
  | .callExpression callee args =>
      match callee with
      | .propertyAccessExpression paExpr paName =>
          let ns : Option String :=
            match paExpr with
            | .identifier t => some t
            | _ => none
          if ns ≠ some "Math" then node
          else
            let method : Option String :=
              match paName with
              | .identifier t => some t
              | _ => none
            let decimalMethod : JsLookup :=
              match method with
              | some m => trigFunctionsIndex m
              | none => .undefinedValue
            match decimalMethod with
            | .mappedName dm =>
                .callExpression
                  (.propertyAccessExpression (.identifier "Decimal") (.identifier dm))
                  args
            | .inheritedMember nm =>
                .callExpression
                  (.propertyAccessExpression (.identifier "Decimal") (.identifierOfInherited nm))
                  args
            | .undefinedValue => node
      | _ => node
  | _ => node

/-- ensureFixedPoint (src/loader.ts lines 11-16).  A numeric literal is
returned unchanged; a binary expression is delegated to
rewriteBinaryExpression; a call expression is delegated to
rewriteCallExpression; any other kind throws, carrying the node kind.  The
delegated body of rewriteBinaryExpression (lines 18-50) is inlined at the
binary case so that the mutual recursion of the source becomes structural;
the standalone rewriteBinaryExpression below has the identical body, and
ensureFixedPoint_binaryExpression proves the two agree definitionally. -/
def ensureFixedPoint : Node → Except TransformError Node
  | .numericLiteral text => .ok (.numericLiteral text)
  | .binaryExpression left opKind right =>
      match operatorMethod opKind with
      | none => .ok (.binaryExpression left opKind right)
      | some op => do
          let l ← ensureFixedPoint left
          let r ← ensureFixedPoint right
          .ok (.callExpression
                (.propertyAccessExpression
                  (.newExpression (.identifier "Decimal") [l])
                  (.identifier op))
                [r])
  | .callExpression callee args => .ok (rewriteCallExpression (.callExpression callee args))
  | n => .error (.unsupportedNodeKind n.kind)

/-- rewriteBinaryExpression (src/loader.ts lines 18-50).  The operator token
is mapped through the operator switch; an unmapped operator returns the node
unchanged; otherwise both operands are classified through ensureFixedPoint
and a fresh call is built: construct new Decimal from the classified left
operand, then invoke the operator-mapped method with the classified right
operand as sole argument.  (The source function is typed to receive only
binary expressions; the non-binary fallback is unreachable there.) -/
def rewriteBinaryExpression (node : Node) : Except TransformError Node :=
  match node with
  | .binaryExpression left opKind right =>
      match operatorMethod opKind with
      | none => .ok (.binaryExpression left opKind right)
      | some op => do
          let l ← ensureFixedPoint left
          let r ← ensureFixedPoint right
          .ok (.callExpression
                (.propertyAccessExpression
                  (.newExpression (.identifier "Decimal") [l])
                  (.identifier op))
                [r])
  | n => .ok n

theorem ensureFixedPoint_binaryExpression (l : Node) (k : SyntaxKind) (r : Node) :
    ensureFixedPoint (.binaryExpression l k r) = rewriteBinaryExpression (.binaryExpression l k r) := rfl

theorem ensureFixedPoint_callExpression (callee : Node) (args : List Node) :
    ensureFixedPoint (.callExpression callee args)
      = .ok (rewriteCallExpression (.callExpression callee args)) := rfl

example :
    ensureFixedPoint (.binaryExpression (.numericLiteral "1") .PlusToken (.numericLiteral "2"))
      = .ok (.callExpression
              (.propertyAccessExpression
                (.newExpression (.identifier "Decimal") [.numericLiteral "1"])
                (.identifier "plus"))
              [.numericLiteral "2"]) := rfl

example : ensureFixedPoint (.identifier "x") = .error (.unsupportedNodeKind .Identifier) := rfl

example :
    ensureFixedPoint (.binaryExpression (.numericLiteral "1") .LessThanToken (.numericLiteral "2"))
      = .ok (.binaryExpression (.numericLiteral "1") .LessThanToken (.numericLiteral "2")) := rfl

/-- The rewrite computation of decimalifyChild (src/loader.ts lines 87-95):
when the visited node has a parent, a binary expression is rewritten through
rewriteBinaryExpression (which may throw from classifying its operands), a
call expression through rewriteCallExpression, and every other kind computes
no rewrite (modeled as none, the undefined expression variable). -/
def walkerRewrite (node : Node) : Except TransformError (Option Node) :=
  match node.kind with
  | .BinaryExpression => (rewriteBinaryExpression node).map some
  | .CallExpression => .ok (some (rewriteCallExpression node))
  | _ => .ok none

/-- The parent-attachment switch of decimalifyChild (src/loader.ts lines
97-105), given the parent, the visited node and the computed rewrite: when
the rewrite differs from the node, a variable-declaration parent gets its
initializer slot overwritten with the rewrite and a call-expression parent
gets its whole argument list replaced by the one-element list holding the
rewrite; every other parent kind, and the passthrough case where the rewrite
is the node itself, leaves the parent untouched. -/
def attachRewrite (nodeParent node e : Node) : Node :=
  if e = node then nodeParent
  else
    match nodeParent with
    | .variableDeclaration nm _ => .variableDeclaration nm (some e)
    | .callExpression c0 _ => .callExpression c0 [e]
    | p => p

/-- One decimalifyChild visit (src/loader.ts lines 84-108) up to, but not
including, the recursion into children: computes the walker rewrite of the
visited node, applies the parent-attachment switch of lines 97-105 (a parent
that is a variable declaration gets its initializer slot overwritten with the
rewrite, a parent that is a call expression gets its whole argument list
replaced by the one-element list holding the rewrite, any other parent is
left untouched), and returns the updated parent paired with finalNode, the
node of line 108 (expression when a rewrite was computed, otherwise the
original node) whose children the traversal then descends into.  A thrown
classification error propagates, as the uncaught exception does in the
source. -/
def decimalifyStep (nodeParent node : Node) : Except TransformError (Node × Node) :=
  match walkerRewrite node with
  | .error err => .error err
  | .ok none => .ok (nodeParent, node)
  | .ok (some e) => .ok (attachRewrite nodeParent node e, e)

/-- Visit of one child sitting in a slot of a parent whose kind is neither
VariableDeclaration nor CallExpression (so the attachment switch of
decimalifyChild never fires).  If no rewrite is computed, or the rewrite is
the node itself (passthrough), the traversal recurses into the child in
place and the slot afterwards holds the recursed child.  If a fresh rewrite
was computed, it is not attached anywhere: the traversal recurses into the
discarded rewrite (line 108 of src/loader.ts sets finalNode to it), whose
classification errors still propagate, while the slot keeps the original
child untouched. -/
def visitWith (walk : Node → Except TransformError Node) (c : Node) :
    Except TransformError Node := do
  let e? ← walkerRewrite c
  match e? with
  | some e =>
      if e = c then walk c
      else do
        let _ ← walk e
        .ok c
  | none => walk c

/-- Visit of an optional child slot. -/
def optVisit (f : Node → Except TransformError Node) :
    Option Node → Except TransformError (Option Node)
  | none => .ok none
  | some c => do
      let c' ← f c
      .ok (some c')

/-- The recursive walk of decimalifyChild (src/loader.ts lines 84-110),
phrased as the transformation a node undergoes while the walker visits its
children (each child visit may mutate the parent in place through the
attachment switch; we thread that mutation as state).  Children are visited
in ts.forEachChild order.  For a variable-declaration parent the initializer
slot is the one the attachment switch overwrites; the slot is read when the
traversal reaches it, after any overwrite by an earlier child.  For a
call-expression parent the argument list is replaced wholesale by a
one-element list when any child produces a fresh rewrite; the list of
children being iterated is the snapshot read after the callee was visited,
and in-place updates of children visited after a wholesale replacement are
lost with the replaced list.  The fuel argument only bounds recursion depth
so that the in-place walk is total. -/
def walkChildren : Nat → Node → Except TransformError Node
  | 0, _ => .error .outOfFuel
  | Nat.succ fuel, node =>
    match node with
    | .numericLiteral t => .ok (.numericLiteral t)
    | .stringLiteral t => .ok (.stringLiteral t)
    | .identifier t => .ok (.identifier t)
    | .identifierOfInherited t => .ok (.identifierOfInherited t)
    | .binaryExpression l k r => do
        let l' ← visitWith (walkChildren fuel) l
        let r' ← visitWith (walkChildren fuel) r
        .ok (.binaryExpression l' k r')
    | .propertyAccessExpression e nm => do
        let e' ← visitWith (walkChildren fuel) e
        let nm' ← visitWith (walkChildren fuel) nm
        .ok (.propertyAccessExpression e' nm')
    | .newExpression e args => do
        let e' ← visitWith (walkChildren fuel) e
        let args' ← args.mapM (visitWith (walkChildren fuel))
        .ok (.newExpression e' args')
    | .importClause nm nb => do
        let nm' ← optVisit (visitWith (walkChildren fuel)) nm
        let nb' ← optVisit (visitWith (walkChildren fuel)) nb
        .ok (.importClause nm' nb')
    | .importDeclaration cl sp => do
        let cl' ← optVisit (visitWith (walkChildren fuel)) cl
        let sp' ← visitWith (walkChildren fuel) sp
        .ok (.importDeclaration cl' sp')
    | .other k children => do
        let children' ← children.mapM (visitWith (walkChildren fuel))
        .ok (.other k children')
    | .variableDeclaration nm init => do
        let e1? ← walkerRewrite nm
        let st1 ←
          match e1? with
          | some e =>
              if e = nm then do
                let w ← walkChildren fuel nm
                Except.ok (w, init)
              else do
                let w ← walkChildren fuel e
                Except.ok (nm, some w)
          | none => do
              let w ← walkChildren fuel nm
              Except.ok (w, init)
        match st1.snd with
        | none => .ok (.variableDeclaration st1.fst none)
        | some c => do
            let e2? ← walkerRewrite c
            match e2? with
            | some e =>
                if e = c then do
                  let w ← walkChildren fuel c
                  Except.ok (Node.variableDeclaration st1.fst (some w))
                else do
                  let w ← walkChildren fuel e
                  Except.ok (Node.variableDeclaration st1.fst (some w))
            | none => do
                let w ← walkChildren fuel c
                Except.ok (Node.variableDeclaration st1.fst (some w))
    | .callExpression c0 args => do
        let e0? ← walkerRewrite c0
        let st0 ←
          match e0? with
          | some e =>
              if e = c0 then do
                let w ← walkChildren fuel c0
                Except.ok (w, args)
              else do
                let w ← walkChildren fuel e
                Except.ok (c0, [w])
          | none => do
              let w ← walkChildren fuel c0
              Except.ok (w, args)
        let stF ← (st0.snd.enum).foldlM
          (fun (st : List Node × Bool) ic => do
            let e? ← walkerRewrite ic.snd
            match e? with
            | some e =>
                if e = ic.snd then do
                  let w ← walkChildren fuel ic.snd
                  Except.ok (if st.snd then st else (st.fst.set ic.fst w, st.snd))
                else do
                  let w ← walkChildren fuel e
                  Except.ok ([w], true)
            | none => do
                let w ← walkChildren fuel ic.snd
                Except.ok (if st.snd then st else (st.fst.set ic.fst w, st.snd)))
          (st0.snd, false)
        .ok (.callExpression st0.fst stF.fst)

/-- decimalify (src/loader.ts lines 83-113): the walk is kicked off on the
source file with no parent, so no rewrite is attempted for the root itself
and the traversal descends into its children with the root as parent.  A
program is embedded as an other-node of kind SourceFile whose children are
the top-level statements. -/
def decimalify (fuel : Nat) (sourceFile : Node) : Except TransformError Node :=
  walkChildren fuel sourceFile

/-- The per-statement test of sourceFileHasDecimalJS (src/loader.ts lines
118-135): the statement must be an import declaration, its module specifier
a string literal with text decimal.js, its clause present, the default name
of that clause present and an identifier, and the bound text Decimal.  Any
named bindings of the clause are never inspected. -/
def isDecimalJSImport (node : Node) : Bool :=
  match node with
  | .importDeclaration cl sp =>
      match sp with
      | .stringLiteral text =>
          if text = "decimal.js" then
            match cl with
            | some (.importClause (some (.identifier nm)) _) => nm == "Decimal"
            | _ => false
          else false
      | _ => false
  | _ => false

/-- sourceFileHasDecimalJS (src/loader.ts lines 115-138), phrased on the
top-level statement list that ts.forEachChild visits on a source file; the
flag named importExists, set by the first matching statement, is the same as
an existence check over the list. -/
def sourceFileHasDecimalJS (stmts : List Node) : Bool :=
  stmts.any isDecimalJSImport

/-- The synthetic import built by the loader (src/loader.ts lines 145-150):
an import declaration whose clause default-imports the identifier Decimal
and whose module specifier is the literal decimal.js. -/
def decimalImportDeclaration : Node :=
  .importDeclaration
    (some (.importClause (some (.identifier "Decimal")) none))
    (.stringLiteral "decimal.js")

/-- The import-ensuring step of the loader (src/loader.ts lines 143-153): if
sourceFileHasDecimalJS finds no matching import, the synthetic import is
prepended in front of all existing statements (updateSourceFileNode with the
new import followed by the original statement list); otherwise the program
is left as is. -/
def loaderEnsureImport (stmts : List Node) : List Node :=
  if sourceFileHasDecimalJS stmts then stmts else decimalImportDeclaration :: stmts

/-- How many top-level statements match the import check. -/
def countDecimalImports (stmts : List Node) : Nat :=
  stmts.countP (fun n => isDecimalJSImport n)

example :
    walkChildren 10
        (.other .ExpressionStatement
          [.binaryExpression (.numericLiteral "1") .LessThanToken (.numericLiteral "2")])
      = .ok (.other .ExpressionStatement
          [.binaryExpression (.numericLiteral "1") .LessThanToken (.numericLiteral "2")]) := rfl

example :
    walkChildren 10
        (.other .VariableStatement
          [.other .VariableDeclarationList
            [.variableDeclaration (.identifier "x")
              (some (.binaryExpression (.numericLiteral "1") .PlusToken (.numericLiteral "2")))]])
      = .ok (.other .VariableStatement
          [.other .VariableDeclarationList
            [.variableDeclaration (.identifier "x")
              (some (.callExpression
                (.propertyAccessExpression
                  (.newExpression (.identifier "Decimal") [.numericLiteral "1"])
                  (.identifier "plus"))
                [.numericLiteral "2"]))]]) := rfl

/-- An import of Decimal through named bindings rather than a default-import
clause: import obraceDecimalcbrace from decimal.js, written with a clause
whose name field is absent and whose named bindings list the identifier. -/
def namedDecimalImport : Node :=
  .importDeclaration
    (some (.importClause none (some (.other .NamedImports [.identifier "Decimal"]))))
    (.stringLiteral "decimal.js")

/-- An import binding Decimal through a namespace import, with no default
name in the clause. -/
def namespaceDecimalImport : Node :=
  .importDeclaration
    (some (.importClause none (some (.other .NamespaceImport [.identifier "Decimal"]))))
    (.stringLiteral "decimal.js")

theorem isDecimalJSImport_decimalImportDeclaration :
    isDecimalJSImport decimalImportDeclaration = true := rfl

theorem countDecimalImports_cons (s : Node) (stmts : List Node) :
    countDecimalImports (s :: stmts)
      = countDecimalImports stmts + if isDecimalJSImport s then 1 else 0 := by
  simp [countDecimalImports, List.countP_cons]

theorem sourceFileHasDecimalJS_iff (stmts : List Node) :
    sourceFileHasDecimalJS stmts = true ↔ 0 < countDecimalImports stmts := by
  simp [sourceFileHasDecimalJS, countDecimalImports, List.countP_pos_iff, List.any_eq_true]

theorem loaderEnsureImport_has {stmts : List Node}
    (h : sourceFileHasDecimalJS stmts = true) : loaderEnsureImport stmts = stmts := by
  simp [loaderEnsureImport, h]

theorem loaderEnsureImport_not_has {stmts : List Node}
    (h : sourceFileHasDecimalJS stmts = false) :
    loaderEnsureImport stmts = decimalImportDeclaration :: stmts := by
  simp [loaderEnsureImport, h]

/-- Claim C1 (amended): a unary expression given to the strict classifier
ensureFixedPoint fails with UnsupportedNodeKind carrying the node syntactic
kind, but a comparison expression does not fail: comparisons are binary
expressions, so the classifier delegates them to the binary rewriter, whose
operator switch passes unknown operators through and returns the node
unchanged.  The walker non-fatal rule application leaves both a comparison
and a unary expression unmodified, with no error raised and no rewrite
performed. -/
theorem c1_unary_fatal_comparison_passthrough :
    (∀ children : List Node,
        ensureFixedPoint (.other .PrefixUnaryExpression children)
          = .error (.unsupportedNodeKind .PrefixUnaryExpression)) ∧
    (∀ l r : Node,
        ensureFixedPoint (.binaryExpression l .LessThanToken r)
          = .ok (.binaryExpression l .LessThanToken r)) ∧
    walkChildren 10 (.other .ExpressionStatement
        [.binaryExpression (.numericLiteral "3") .LessThanToken (.numericLiteral "4")])
      = .ok (.other .ExpressionStatement
        [.binaryExpression (.numericLiteral "3") .LessThanToken (.numericLiteral "4")]) ∧
    walkChildren 10 (.other .ExpressionStatement
        [.other .PrefixUnaryExpression [.numericLiteral "5"]])
      = .ok (.other .ExpressionStatement
        [.other .PrefixUnaryExpression [.numericLiteral "5"]]) :=
  ⟨fun _ => rfl, fun _ _ => rfl, rfl, rfl⟩

/-- Claim C1 counterexample: the claim asserts that the strict classifier
fails with UnsupportedNodeKind on a comparison expression; on the concrete
comparison of the literals 1 and 2 the call instead succeeds and returns the
node unchanged, because ts.isBinaryExpression accepts comparisons and the
operator switch of rewriteBinaryExpression treats a comparison operator as
an unknown operator and passes the node through. -/
theorem c1_comparison_does_not_fail :
    ensureFixedPoint
        (.binaryExpression (.numericLiteral "1") .LessThanToken (.numericLiteral "2"))
      = .ok (.binaryExpression (.numericLiteral "1") .LessThanToken (.numericLiteral "2")) := rfl

/-- Claim C2: for literal operands, each arithmetic operator rewrites to the
construct-then-invoke shape, new Decimal(a) followed by the mapped method
with b as sole argument: div for /, times for *, plus for +, minus for -;
and in general, for any operator the switch maps, both operands are first
classified recursively through ensureFixedPoint and the replacement is built
from the classified operands. -/
theorem c2_binary_rewrite_shape :
    (∀ a b : String,
        rewriteBinaryExpression
            (.binaryExpression (.numericLiteral a) .SlashToken (.numericLiteral b))
          = .ok (.callExpression
              (.propertyAccessExpression
                (.newExpression (.identifier "Decimal") [.numericLiteral a])
                (.identifier "div"))
              [.numericLiteral b])) ∧
    (∀ a b : String,
        rewriteBinaryExpression
            (.binaryExpression (.numericLiteral a) .AsteriskToken (.numericLiteral b))
          = .ok (.callExpression
              (.propertyAccessExpression
                (.newExpression (.identifier "Decimal") [.numericLiteral a])
                (.identifier "times"))
              [.numericLiteral b])) ∧
    (∀ a b : String,
        rewriteBinaryExpression
            (.binaryExpression (.numericLiteral a) .PlusToken (.numericLiteral b))
          = .ok (.callExpression
              (.propertyAccessExpression
                (.newExpression (.identifier "Decimal") [.numericLiteral a])
                (.identifier "plus"))
              [.numericLiteral b])) ∧
    (∀ a b : String,
        rewriteBinaryExpression
            (.binaryExpression (.numericLiteral a) .MinusToken (.numericLiteral b))
          = .ok (.callExpression
              (.propertyAccessExpression
                (.newExpression (.identifier "Decimal") [.numericLiteral a])
                (.identifier "minus"))
              [.numericLiteral b])) ∧
    (∀ (left right : Node) (k : SyntaxKind) (m : String),
        operatorMethod k = some m →
        rewriteBinaryExpression (.binaryExpression left k right)
          = (ensureFixedPoint left).bind (fun l =>
              (ensureFixedPoint right).bind (fun r =>
                Except.ok (.callExpression
                  (.propertyAccessExpression
                    (.newExpression (.identifier "Decimal") [l])
                    (.identifier m))
                  [r])))) := by
  refine ⟨fun a b => rfl, fun a b => rfl, fun a b => rfl, fun a b => rfl, ?_⟩
  intro left right k m h
  simp only [rewriteBinaryExpression]
  rw [h]
  rfl

/-- Claim C2 witness: instantiating the general conjunct at the division of
the literals 1 and 2 discharges its hypothesis and computes the rewrite. -/
theorem c2_binary_rewrite_shape_witness :
    rewriteBinaryExpression
        (.binaryExpression (.numericLiteral "1") .SlashToken (.numericLiteral "2"))
      = (ensureFixedPoint (.numericLiteral "1")).bind (fun l =>
          (ensureFixedPoint (.numericLiteral "2")).bind (fun r =>
            Except.ok (.callExpression
              (.propertyAccessExpression
                (.newExpression (.identifier "Decimal") [l])
                (.identifier "div"))
              [r]))) :=
  c2_binary_rewrite_shape.2.2.2.2 (.numericLiteral "1") (.numericLiteral "2") .SlashToken "div" rfl

/-- Claim C3: the strict classifier returns every numeric-literal node
unchanged, and classifying the result again returns the same node, so
classification is idempotent on literals. -/
theorem c3_literal_identity :
    (∀ text : String,
        ensureFixedPoint (.numericLiteral text) = .ok (.numericLiteral text)) ∧
    (∀ text : String,
        (ensureFixedPoint (.numericLiteral text)).bind ensureFixedPoint
          = ensureFixedPoint (.numericLiteral text)) :=
  ⟨fun _ => rfl, fun _ => rfl⟩

/-- Claim C5: a binary expression whose operator the switch does not map is
returned unchanged by rewriteBinaryExpression, with neither operand visited
or classified (the theorem holds for arbitrary operands, including
identifiers that the classifier would reject had it been invoked). -/
theorem c5_unknown_operator_passthrough :
    ∀ (left : Node) (k : SyntaxKind) (right : Node),
      operatorMethod k = none →
      rewriteBinaryExpression (.binaryExpression left k right)
        = .ok (.binaryExpression left k right) := by
  intro left k right h
  simp only [rewriteBinaryExpression]
  rw [h]

/-- Claim C5 witness: a comparison of two bare identifiers passes through
unchanged; each identifier would make ensureFixedPoint throw, so the success
witnesses that the operands were not classified in this path. -/
theorem c5_unknown_operator_passthrough_witness :
    rewriteBinaryExpression
        (.binaryExpression (.identifier "x") .LessThanToken (.identifier "y"))
      = .ok (.binaryExpression (.identifier "x") .LessThanToken (.identifier "y")) :=
  c5_unknown_operator_passthrough (.identifier "x") .LessThanToken (.identifier "y") rfl

/-- Claim C6 (amended): when the walker computes a rewrite for a node whose
parent kind is neither a variable declaration nor a call expression, the
attachment switch leaves the parent unchanged (the rewrite is attached
nowhere), and the traversal then recurses into the children of the computed
rewrite (the finalNode of line 108), not into the children of the original
node. -/
theorem c6_unrecognized_parent_discard :
    ∀ (parent node e : Node),
      parent.kind ≠ .VariableDeclaration →
      parent.kind ≠ .CallExpression →
      walkerRewrite node = .ok (some e) →
      decimalifyStep parent node = .ok (parent, e) := by
  intro parent node e h1 h2 h3
  simp only [decimalifyStep, h3]
  by_cases he : e = node
  · simp only [attachRewrite, if_pos he]
  · simp only [attachRewrite, if_neg he]
    cases parent <;> first | rfl | exact absurd rfl h1 | exact absurd rfl h2

/-- Claim C6 witness: for the addition of the literals 1 and 2 sitting under
a parenthesized-expression parent, the step leaves the parent unchanged and
hands the freshly built Decimal call to the recursion. -/
theorem c6_unrecognized_parent_discard_witness :
    decimalifyStep
        (.other .ParenthesizedExpression
          [.binaryExpression (.numericLiteral "1") .PlusToken (.numericLiteral "2")])
        (.binaryExpression (.numericLiteral "1") .PlusToken (.numericLiteral "2"))
      = .ok
          (.other .ParenthesizedExpression
            [.binaryExpression (.numericLiteral "1") .PlusToken (.numericLiteral "2")],
           .callExpression
             (.propertyAccessExpression
               (.newExpression (.identifier "Decimal") [.numericLiteral "1"])
               (.identifier "plus"))
             [.numericLiteral "2"]) :=
  c6_unrecognized_parent_discard _ _ _ (by decide) (by decide) rfl

/-- Claim C6 counterexample: the claim asserts that after a rewrite under an
unrecognized parent the traversal recurses into the children of the original
node; for the addition of the literals 1 and 2 under an expression-statement
parent, decimalifyStep returns the untouched parent paired with the freshly
built Decimal call as the node to recurse into, and that call differs from
the original addition, so the traversal descends into the discarded rewrite
instead of the original node. -/
theorem c6_recursion_enters_discarded_rewrite :
    decimalifyStep
        (.other .ExpressionStatement
          [.binaryExpression (.numericLiteral "1") .PlusToken (.numericLiteral "2")])
        (.binaryExpression (.numericLiteral "1") .PlusToken (.numericLiteral "2"))
      = .ok
          (.other .ExpressionStatement
            [.binaryExpression (.numericLiteral "1") .PlusToken (.numericLiteral "2")],
           .callExpression
             (.propertyAccessExpression
               (.newExpression (.identifier "Decimal") [.numericLiteral "1"])
               (.identifier "plus"))
             [.numericLiteral "2"]) ∧
    (Node.callExpression
        (.propertyAccessExpression
          (.newExpression (.identifier "Decimal") [.numericLiteral "1"])
          (.identifier "plus"))
        [.numericLiteral "2"])
      ≠ .binaryExpression (.numericLiteral "1") .PlusToken (.numericLiteral "2") :=
  ⟨rfl, by decide⟩

/-- Claim C7 (amended): the import-ensuring step never leaves the program
without a matching import (at least one after every run); if the program had
at most one matching import before the run, it has exactly one afterwards;
the step is idempotent; and when the import is injected it is prepended in
front of all existing statements, preserving their relative order.  The
unqualified exactly-one guarantee of the claim fails when duplicates already
exist (see the counterexample). -/
theorem c7_import_step :
    (∀ stmts : List Node, 1 ≤ countDecimalImports (loaderEnsureImport stmts)) ∧
    (∀ stmts : List Node, countDecimalImports stmts ≤ 1 →
        countDecimalImports (loaderEnsureImport stmts) = 1) ∧
    (∀ stmts : List Node,
        loaderEnsureImport (loaderEnsureImport stmts) = loaderEnsureImport stmts) ∧
    (∀ stmts : List Node, sourceFileHasDecimalJS stmts = false →
        loaderEnsureImport stmts = decimalImportDeclaration :: stmts) := by
  refine ⟨?_, ?_, ?_, ?_⟩
  · intro stmts
    cases h : sourceFileHasDecimalJS stmts with
    | true =>
        have hpos := (sourceFileHasDecimalJS_iff stmts).mp h
        rw [loaderEnsureImport_has h]
        omega
    | false =>
        rw [loaderEnsureImport_not_has h, countDecimalImports_cons,
          isDecimalJSImport_decimalImportDeclaration]
        simp
  · intro stmts hle
    cases h : sourceFileHasDecimalJS stmts with
    | true =>
        have hpos := (sourceFileHasDecimalJS_iff stmts).mp h
        rw [loaderEnsureImport_has h]
        omega
    | false =>
        have hz : countDecimalImports stmts = 0 := by
          by_contra hnz
          have htrue : sourceFileHasDecimalJS stmts = true :=
            (sourceFileHasDecimalJS_iff stmts).mpr (by omega)
          exact absurd (htrue.symm.trans h) (by decide)
        rw [loaderEnsureImport_not_has h, countDecimalImports_cons,
          isDecimalJSImport_decimalImportDeclaration, hz]
        rfl
  · intro stmts
    cases h : sourceFileHasDecimalJS stmts with
    | true => rw [loaderEnsureImport_has h, loaderEnsureImport_has h]
    | false =>
        have hcons : sourceFileHasDecimalJS (decimalImportDeclaration :: stmts) = true := by
          simp [sourceFileHasDecimalJS, isDecimalJSImport_decimalImportDeclaration]
        rw [loaderEnsureImport_not_has h, loaderEnsureImport_has hcons]
  · intro stmts h
    exact loaderEnsureImport_not_has h

/-- Claim C7 witness: running the step on the empty program injects exactly
one matching import, by prepending it to the empty statement list. -/
theorem c7_import_step_witness :
    countDecimalImports (loaderEnsureImport []) = 1 ∧
    loaderEnsureImport [] = [decimalImportDeclaration] :=
  ⟨c7_import_step.2.1 [] (by decide), c7_import_step.2.2.2 [] rfl⟩

/-- Claim C7 counterexample: the claim asserts that after the step the
program contains exactly one matching import, never duplicates; on a program
that already contains the same import twice the step finds a match, changes
nothing, and leaves two matching imports in place. -/
theorem c7_duplicates_preserved :
    countDecimalImports
        (loaderEnsureImport [decimalImportDeclaration, decimalImportDeclaration]) = 2 := by
  decide

/-- Claim C8: classifying the nested arithmetic (1 + 2) * 3 strictly yields
two levels of wrapping: the outer times construct-call carries, as the sole
argument of its new Decimal constructor, the fully formed plus construct-call
over the literals 1 and 2, and the literal 3 as sole method argument. -/
theorem c8_nested_arithmetic :
    ensureFixedPoint
        (.binaryExpression
          (.binaryExpression (.numericLiteral "1") .PlusToken (.numericLiteral "2"))
          .AsteriskToken
          (.numericLiteral "3"))
      = .ok (.callExpression
          (.propertyAccessExpression
            (.newExpression (.identifier "Decimal")
              [.callExpression
                (.propertyAccessExpression
                  (.newExpression (.identifier "Decimal") [.numericLiteral "1"])
                  (.identifier "plus"))
                [.numericLiteral "2"]])
            (.identifier "times"))
          [.numericLiteral "3"]) := rfl

/-- Claim C9: whenever the walker attaches a rewrite into a call-expression
parent, the attachment switch replaces the whole argument list of the parent
by the one-element list holding the rewrite, whatever the previous arguments
were; concretely, walking the two-argument call f(1 + 2, 3) rewrites the
first argument and drops the literal 3, leaving a call of arity one. -/
theorem c9_call_parent_argument_replacement :
    (∀ (callee : Node) (args : List Node) (node e : Node),
        walkerRewrite node = .ok (some e) → e ≠ node →
        decimalifyStep (.callExpression callee args) node
          = .ok (.callExpression callee [e], e)) ∧
    walkChildren 10
        (.callExpression (.identifier "f")
          [.binaryExpression (.numericLiteral "1") .PlusToken (.numericLiteral "2"),
           .numericLiteral "3"])
      = .ok (.callExpression (.identifier "f")
          [.callExpression
            (.propertyAccessExpression
              (.newExpression (.identifier "Decimal") [.numericLiteral "1"])
              (.identifier "plus"))
            [.numericLiteral "2"]]) := by
  refine ⟨?_, rfl⟩
  intro callee args node e h hne
  simp only [decimalifyStep, h, attachRewrite, if_neg hne]

/-- Claim C9 witness: attaching the rewrite of 1 + 2 into the two-argument
call parent g(7, 8) replaces the whole argument list by the one-element list
holding the Decimal call. -/
theorem c9_call_parent_argument_replacement_witness :
    decimalifyStep
        (.callExpression (.identifier "g") [.numericLiteral "7", .numericLiteral "8"])
        (.binaryExpression (.numericLiteral "1") .PlusToken (.numericLiteral "2"))
      = .ok
          (.callExpression (.identifier "g")
            [.callExpression
              (.propertyAccessExpression
                (.newExpression (.identifier "Decimal") [.numericLiteral "1"])
                (.identifier "plus"))
              [.numericLiteral "2"]],
           .callExpression
             (.propertyAccessExpression
               (.newExpression (.identifier "Decimal") [.numericLiteral "1"])
               (.identifier "plus"))
             [.numericLiteral "2"]) :=
  c9_call_parent_argument_replacement.1 _ _ _ _ rfl (by decide)

/-- Claim C10: the existing-import check accepts exactly the import
declarations whose clause default-imports the identifier Decimal and whose
module specifier is the string literal decimal.js (named bindings beside the
default name are not inspected); a named import or a namespace import of
Decimal is rejected, and the loader then prepends a second import binding
the same local name in front of it. -/
theorem c10_import_check_shape :
    (∀ node : Node,
        isDecimalJSImport node = true ↔
          ∃ nb : Option Node,
            node = .importDeclaration
              (some (.importClause (some (.identifier "Decimal")) nb))
              (.stringLiteral "decimal.js")) ∧
    isDecimalJSImport namedDecimalImport = false ∧
    isDecimalJSImport namespaceDecimalImport = false ∧
    loaderEnsureImport [namedDecimalImport]
      = [decimalImportDeclaration, namedDecimalImport] ∧
    loaderEnsureImport [namespaceDecimalImport]
      = [decimalImportDeclaration, namespaceDecimalImport] := by
  refine ⟨?_, rfl, rfl, rfl, rfl⟩
  intro node
  cases node with
  | importDeclaration cl sp =>
      cases sp with
      | stringLiteral text =>
          by_cases ht : text = "decimal.js"
          · subst ht
            cases cl with
            | none => simp [isDecimalJSImport]
            | some c =>
                cases c with
                | importClause nm nb =>
                    cases nm with
                    | none => simp [isDecimalJSImport]
                    | some nmN => cases nmN <;> simp [isDecimalJSImport]
                | numericLiteral t => simp [isDecimalJSImport]
                | stringLiteral t => simp [isDecimalJSImport]
                | identifier t => simp [isDecimalJSImport]
                | identifierOfInherited t => simp [isDecimalJSImport]
                | binaryExpression a k b => simp [isDecimalJSImport]
                | callExpression a b => simp [isDecimalJSImport]
                | propertyAccessExpression a b => simp [isDecimalJSImport]
                | newExpression a b => simp [isDecimalJSImport]
                | variableDeclaration a b => simp [isDecimalJSImport]
                | importDeclaration a b => simp [isDecimalJSImport]
                | other a b => simp [isDecimalJSImport]
          · simp [isDecimalJSImport, ht]
      | numericLiteral t => simp [isDecimalJSImport]
      | identifier t => simp [isDecimalJSImport]
      | identifierOfInherited t => simp [isDecimalJSImport]
      | binaryExpression a k b => simp [isDecimalJSImport]
      | callExpression a b => simp [isDecimalJSImport]
      | propertyAccessExpression a b => simp [isDecimalJSImport]
      | newExpression a b => simp [isDecimalJSImport]
      | variableDeclaration a b => simp [isDecimalJSImport]
      | importClause a b => simp [isDecimalJSImport]
      | importDeclaration a b => simp [isDecimalJSImport]
      | other a b => simp [isDecimalJSImport]
  | numericLiteral t => simp [isDecimalJSImport]
  | stringLiteral t => simp [isDecimalJSImport]
  | identifier t => simp [isDecimalJSImport]
  | identifierOfInherited t => simp [isDecimalJSImport]
  | binaryExpression l k r => simp [isDecimalJSImport]
  | callExpression e args => simp [isDecimalJSImport]
  | propertyAccessExpression e nm => simp [isDecimalJSImport]
  | newExpression e args => simp [isDecimalJSImport]
  | variableDeclaration nm init => simp [isDecimalJSImport]
  | importClause nm nb => simp [isDecimalJSImport]
  | other k children => simp [isDecimalJSImport]
